import Mathlib

set_option maxRecDepth 20000

/-!
Shallow embedding of `src/webex-auth.ts` (webex_personal_auth).

Strings are modelled as `List Char`.  JavaScript regular-expression tests used
by the source are translated into executable Boolean predicates; JS `\s` and
`String.prototype.trim` use the same whitespace set, modelled by
`jsWhitespace`.  The interactive browser flow `TokenManager.getTokenAutomatically`
is modelled as a pure function over an environment `Env` that records the
outcome of every external interaction (browser launch, page setup, navigation,
per-selector waits and clicks, clipboard read, remote validation), producing a
`RunResult` that records the observable events: how often `browser.close` was
invoked, which tokens were handed to `saveToken` and to
`validatePersonalToken`, whether the clipboard read was attempted, and the
final process exit code.
-/

/-- JS whitespace (the set matched by `\s` and removed by `trim`):
space, tab, LF, VT, FF, CR, NBSP, and the Unicode space separators
plus line/paragraph separators and BOM. -/
def jsWhitespace (c : Char) : Bool :=
  c == ' ' || c == '\t' || c == '\n' || c.toNat == 11 || c.toNat == 12 || c == '\r' ||
  c.toNat == 0xa0 || c.toNat == 0x1680 || (0x2000 ≤ c.toNat && c.toNat ≤ 0x200a) ||
  c.toNat == 0x2028 || c.toNat == 0x2029 || c.toNat == 0x202f || c.toNat == 0x205f ||
  c.toNat == 0x3000 || c.toNat == 0xfeff

/-- JS line terminators, which the regex `.` does not match. -/
def isLineTerm (c : Char) : Bool :=
  c == '\n' || c == '\r' || c.toNat == 0x2028 || c.toNat == 0x2029

/-- Drop the leading run of JS whitespace. -/
def dropLeadingWs : List Char → List Char
  | [] => []
  | c :: cs => if jsWhitespace c then dropLeadingWs cs else c :: cs

/-- Drop the trailing run of JS whitespace. -/
def dropTrailWs (l : List Char) : List Char :=
  (dropLeadingWs l.reverse).reverse

/-- JS `String.prototype.trim`. -/
def trimJs (l : List Char) : List Char :=
  dropTrailWs (dropLeadingWs l)

/-- The Bearer-prefix replace of webex-auth.ts lines 327 and 380, which replaces
the anchored case-insensitive regex match of Bearer plus whitespace with the
empty string: if the string begins with a case-insensitive `Bearer` followed by at least one
whitespace character, remove that prefix together with the whole (greedy `\s+`)
whitespace run; otherwise return the string unchanged. -/
def stripBearer (s : List Char) : List Char :=
  match s with
  | b :: e :: a :: r :: e2 :: r2 :: c :: rest =>
    if b.toLower == 'b' && e.toLower == 'e' && a.toLower == 'a' && r.toLower == 'r' &&
       e2.toLower == 'e' && r2.toLower == 'r' && jsWhitespace c then
      dropLeadingWs rest
    else s
  | _ => s

/-- The Bearer-prefix replace followed by trim — the `cleaned` value of
`isValidTokenFormat` (line 380), also the cleaning applied to the extracted
token at line 327. -/
def cleanedOf (s : List Char) : List Char :=
  trimJs (stripBearer s)

/-- Character class `[A-Za-z0-9+/_-]` (line 389). -/
def tokenChar (c : Char) : Bool :=
  ('A' ≤ c && c ≤ 'Z') || ('a' ≤ c && c ≤ 'z') || ('0' ≤ c && c ≤ '9') ||
  c == '+' || c == '/' || c == '_' || c == '-'

/-- Case-insensitive character comparison, as used by regex flag `/i`
on ASCII letters. -/
def ciEq (a b : Char) : Bool :=
  a.toLower == b.toLower

/-- Case-insensitive list prefix test. -/
def isPrefixCI : List Char → List Char → Bool
  | [], _ => true
  | _ :: _, [] => false
  | a :: as, b :: bs => ciEq a b && isPrefixCI as bs

/-- Case-insensitive substring containment: the unanchored regex
`/trackingId/i` (line 394). -/
def containsCI (p : List Char) : List Char → Bool
  | [] => isPrefixCI p []
  | c :: rest => isPrefixCI p (c :: rest) || containsCI p rest

/-- Matches `\s*"` at the current position. -/
def wsThenQuote : List Char → Bool
  | [] => false
  | c :: rest => c == '\"' || (jsWhitespace c && wsThenQuote rest)

/-- Unanchored regex `/:\s*"/` (line 398). -/
def containsColonQuote : List Char → Bool
  | [] => false
  | c :: rest => (c == ':' && wsThenQuote rest) || containsColonQuote rest

/-- Unanchored regex `/,\s*"/` (line 399). -/
def containsCommaQuote : List Char → Bool
  | [] => false
  | c :: rest => (c == ',' && wsThenQuote rest) || containsCommaQuote rest

/-- Anchored wrapping regexes such as `/^\{.*\}$/` (lines 395-397): first
character is the opener, last character is the closer, the interior contains
no line terminator (JS `.` without `/s` does not match line terminators), and
the string has length at least 2. -/
def wrappedIn (o c2 : Char) (s : List Char) : Bool :=
  match s.head?, s.getLast? with
  | some a, some b =>
    2 ≤ s.length && a == o && b == c2 &&
      ((s.drop 1).dropLast.all (fun c => !isLineTerm c))
  | _, _ => false

/-- The `excludeJSONPatterns` loop (lines 393-404). -/
def excludeJSON (cl : List Char) : Bool :=
  containsCI ("trackingId".data) cl ||
  wrappedIn '\x7b' '\x7d' cl ||
  wrappedIn '[' ']' cl ||
  wrappedIn '\"' '\"' cl ||
  containsColonQuote cl ||
  containsCommaQuote cl

/-- Atom of an anchored literal pattern: either a literal character
(matched case-insensitively, flag `/i`) or the regex `.`
(any non-line-terminator). -/
inductive PAtom where
  | lit (c : Char)
  | dotAny
deriving DecidableEq

/-- Match a list of pattern atoms against a prefix of the string. -/
def matchAtoms : List PAtom → List Char → Bool
  | [], _ => true
  | _ :: _, [] => false
  | PAtom.lit c :: ps, x :: xs => ciEq x c && matchAtoms ps xs
  | PAtom.dotAny :: ps, x :: xs => !isLineTerm x && matchAtoms ps xs

/-- Literal characters of a string as pattern atoms. -/
def lits (s : String) : List PAtom :=
  s.data.map PAtom.lit

/-- Regex `/^[x]{10,}/i` (line 425): at least ten leading `x`/`X`. -/
def xRun10 (s : List Char) : Bool :=
  10 ≤ (s.takeWhile (fun c => c.toLower == 'x')).length

/-- ASCII letter (class `[a-z]` with flag `/i`). -/
def asciiLetter (c : Char) : Bool :=
  ('a' ≤ c && c ≤ 'z') || ('A' ≤ c && c ≤ 'Z')

/-- Regex `/^[a-z]{3,}[.][a-z]{3,}/i` (line 426): at least three leading
letters, then a literal dot, then at least three more letters.  The greedy
leading run is deterministic because `.` is not a letter. -/
def dottedWords (s : List Char) : Bool :=
  let run := s.takeWhile asciiLetter
  let rest := s.drop run.length
  3 ≤ run.length &&
    match rest with
    | '.' :: r => 3 ≤ (r.takeWhile asciiLetter).length
    | _ => false

/-- The `excludePatterns` loop (lines 407-431), in source order. -/
def excludePlaceholder (cl : List Char) : Bool :=
  matchAtoms (lits ("example")) cl ||
  matchAtoms (lits ("sample")) cl ||
  matchAtoms (lits ("demo")) cl ||
  matchAtoms (lits ("test")) cl ||
  matchAtoms (lits ("your") ++ [PAtom.dotAny] ++ lits ("token") ++ [PAtom.dotAny] ++ lits ("here")) cl ||
  matchAtoms (lits ("replace") ++ [PAtom.dotAny] ++ lits ("with")) cl ||
  matchAtoms (lits ("placeholder")) cl ||
  matchAtoms (lits ("xxxxxxxx")) cl ||
  matchAtoms (lits ("aaaaaa")) cl ||
  matchAtoms (lits ("111111")) cl ||
  matchAtoms (lits ("000000")) cl ||
  matchAtoms (lits ("insert") ++ [PAtom.dotAny] ++ lits ("your")) cl ||
  matchAtoms (lits ("put") ++ [PAtom.dotAny] ++ lits ("your")) cl ||
  matchAtoms (lits ("add") ++ [PAtom.dotAny] ++ lits ("your")) cl ||
  matchAtoms (lits ("enter") ++ [PAtom.dotAny] ++ lits ("your")) cl ||
  matchAtoms (lits ("copy") ++ [PAtom.dotAny] ++ lits ("your")) cl ||
  xRun10 cl ||
  dottedWords cl

/-- Regex `/\d/` (line 434). -/
def hasDigit (cl : List Char) : Bool :=
  cl.any (fun c => '0' ≤ c && c ≤ '9')

/-- Regex `/[A-Z]/` (line 435). -/
def hasUppercase (cl : List Char) : Bool :=
  cl.any (fun c => 'A' ≤ c && c ≤ 'Z')

/-- Regex `/[a-z]/` (line 436). -/
def hasLowercase (cl : List Char) : Bool :=
  cl.any (fun c => 'a' ≤ c && c ≤ 'z')

/-- Body of `isValidTokenFormat` after cleaning (lines 386-448), with the
checks in source order.  The final lines 443-448 return `true` in both the
`hasSpecialChars` and the fall-through branch, so they collapse to `true`.
The regex `/^[A-Za-z0-9+/_-]+$/` requires a non-empty string of
`tokenChar`s. -/
def checkCleaned (cl : List Char) : Bool :=
  if cl.length < 80 then false
  else if !(!cl.isEmpty && cl.all tokenChar) then false
  else if excludeJSON cl then false
  else if excludePlaceholder cl then false
  else if !(hasDigit cl && hasUppercase cl && hasLowercase cl) then false
  else true

/-- The classifier `TokenManager.isValidTokenFormat` (lines 378-449). -/
def isValidTokenFormat (text : List Char) : Bool :=
  checkCleaned (cleanedOf text)

/-- The debug check at line 337: regex `/^[A-Za-z0-9+/]+=*$/` — one or more
base64 characters followed by any number of `=` padding characters. -/
def base64DebugFormat (s : List Char) : Bool :=
  let rev := s.reverse
  let pad := rev.takeWhile (fun c => c == '=')
  let body := (rev.drop pad.length).reverse
  !body.isEmpty && body.all (fun c =>
    ('A' ≤ c && c ≤ 'Z') || ('a' ≤ c && c ≤ 'z') || ('0' ≤ c && c ≤ '9') ||
    c == '+' || c == '/')

/-- Outcome of one avatar-selector alternative in the loop at lines 252-262:
the `waitForSelector` call times out, or the element resolves but the `click`
call throws, or both calls succeed. -/
inductive SelRes where
  | waitTimeout
  | clickThrew
  | success
deriving DecidableEq

/-- The `avatarSelectors` array (lines 241-249). -/
def avatarSelectors : List String :=
  ["#root > div > header > div > div > div.md-top-bar__right > div.md-top-bar__user > div",
   ".md-top-bar__user",
   ".md-avatar",
   ".user-image",
   "div.md-top-bar__user",
   "div.md-avatar",
   "img.user-image"]

/-- The avatar alternative-locator loop (lines 251-262): try each selector in
order, catching both wait timeouts and click failures, and stop at the first
selector whose wait and click both succeed; `none` means no selector
succeeded (so line 265 throws). -/
def runAvatarLoop (res : String → SelRes) : Option String :=
  avatarSelectors.find? (fun s => decide (res s = SelRes.success))

/-- Environment of one run of `getTokenAutomatically`: the outcome of every
external interaction.  `launchOk` is `puppeteer.launch` (line 110), `newPageOk`
is `browser.newPage` (line 121), `minimizeOk` is the window-minimizing
`page.evaluate` (line 125), `permOk` is `overridePermissions` (line 132),
`gotoOk` is `page.goto` (line 135); a `false` value means the call threw, and
none of these five calls is inside an inner try, so their exceptions reach the
outer catch at line 366.  `signinOk` and `trustOk` are the sign-in block
(lines 144-202) and the trust-device block (lines 206-229); both are wrapped
in their own try/catch, so their value does not affect control flow
afterwards.  `avatarRes` gives the outcome of each avatar selector, `copyOk` and
`okBtnOk` are the copy-token and confirm steps (lines 273-282, wait or click
throwing on failure), `clipboard` is the clipboard read (line 291, `none`
means it threw), and `validatorOk` is the result of `validatePersonalToken`
(which never throws: it catches internally, lines 64-84). -/
structure Env where
  launchOk : Bool
  newPageOk : Bool
  minimizeOk : Bool
  permOk : Bool
  gotoOk : Bool
  signinOk : Bool
  trustOk : Bool
  avatarRes : String → SelRes
  copyOk : Bool
  okBtnOk : Bool
  clipboard : Option (List Char)
  validatorOk : List Char → Bool

/-- Result of the extraction try-block (lines 235-306): the value of the
`token` variable afterwards, and whether the clipboard read at line 291 was
ever attempted.  An avatar failure (line 265) or a copy/confirm failure
jumps to the catch at line 304, skipping the clipboard read. -/
structure ExtractRes where
  token : Option (List Char)
  clipboardAttempted : Bool
deriving DecidableEq

/-- The extraction try-block (lines 235-306).  On the success path the token
is set at line 295 to `clipboardText.trim()` when the clipboard text is
truthy (non-empty) and `isValidTokenFormat` accepts it. -/
def extractToken (env : Env) : ExtractRes :=
  match runAvatarLoop env.avatarRes with
  | none => ⟨none, false⟩
  | some _ =>
    if !env.copyOk then ⟨none, false⟩
    else if !env.okBtnOk then ⟨none, false⟩
    else
      match env.clipboard with
      | none => ⟨none, true⟩
      | some c =>
        if !c.isEmpty && isValidTokenFormat c then ⟨some (trimJs c), true⟩
        else ⟨none, true⟩

/-- The `TokenResponse` interface (lines 11-16), with the numeric field as a
natural number of seconds. -/
structure TokenResponse where
  access_token : List Char
  refresh_token : List Char
  expires_in : Nat
  token_type : List Char
deriving DecidableEq

/-- The `WEBEX_TOKEN_EXPIRES_AT` value written by `saveToken` (line 33):
`Date.now() + token.expires_in * 1000`, with `now` the value of `Date.now()`
at save time in epoch milliseconds. -/
def persistedExpiresAt (t : TokenResponse) (now : Nat) : Nat :=
  now + t.expires_in * 1000

/-- The string Bearer, the `token_type` of the PAT credential (line 357). -/
def bearerTypeStr : List Char :=
  "Bearer".data

/-- Observable events of one run of the `login` command: number of
`browser.close` invocations, the `TokenResponse` values handed to
`saveToken`, the tokens handed to `validatePersonalToken`, whether the
clipboard read was attempted, whether a token was extracted (the `!token`
test at line 310 failing), the final process exit code, and whether the run
reached the success exit at line 364. -/
structure RunResult where
  closeCount : Nat
  saveCalls : List TokenResponse
  validatorCalls : List (List Char)
  clipboardAttempted : Bool
  tokenExtracted : Bool
  exitCode : Nat
  success : Bool
deriving DecidableEq

/-- Result of an exception escaping to the outer catch (lines 366-375) during
browser launch or page setup/navigation: `process.exit(1)` without any
`browser.close` call. -/
def setupFailResult : RunResult :=
  ⟨0, [], [], false, false, 1, false⟩

/-- The flow `TokenManager.getTokenAutomatically` (lines 93-376) as invoked by the
`login` command (lines 461-472).  Exceptions from launch/newPage/minimize/
permissions/goto reach the outer catch, which calls `process.exit(1)` without
closing the browser.  Otherwise the extraction block runs, `browser.close` is
called at line 308, and: with no token, `browser.close` is called again at
line 320 and the procedure returns (the process then exits normally with
code 0); with a token, it is cleaned at line 327 and validated; on validation
failure the procedure returns at line 349 (process exit code 0); on success
`saveToken` is called once and `process.exit(0)` runs at line 364. -/
def getTokenAutomatically (env : Env) : RunResult :=
  if !env.launchOk then setupFailResult
  else if !env.newPageOk then setupFailResult
  else if !env.minimizeOk then setupFailResult
  else if !env.permOk then setupFailResult
  else if !env.gotoOk then setupFailResult
  else
    match (extractToken env).token with
    | none => ⟨2, [], [], (extractToken env).clipboardAttempted, false, 0, false⟩
    | some t =>
      if env.validatorOk (trimJs (stripBearer t)) then
        ⟨1, [⟨trimJs (stripBearer t), [], 0, bearerTypeStr⟩],
         [trimJs (stripBearer t)], (extractToken env).clipboardAttempted, true, 0, true⟩
      else
        ⟨1, [], [trimJs (stripBearer t)], (extractToken env).clipboardAttempted, true, 0, false⟩

/-- All five setup interactions (launch, new page, minimize script,
clipboard permissions, navigation) succeeded. -/
def setupOk (env : Env) : Bool :=
  env.launchOk && env.newPageOk && env.minimizeOk && env.permOk && env.gotoOk

/-- A well-formed 120-character candidate: only `[A-Za-z0-9+/_-]`, mixed case,
digits, no JSON or placeholder shape. -/
def sampleToken : List Char :=
  ("aB3_xY9-Qw7zaB3_xY9-Qw7zaB3_xY9-Qw7zaB3_xY9-Qw7zaB3_xY9-Qw7zaB3_xY9-Qw7zaB3_xY9-Qw7zaB3_xY9-Qw7zaB3_xY9-Qw7zaB3_xY9-Qw7z").data

/-- The literal `"Bearer "` prefix as a character list. -/
def bearerSp : List Char :=
  ['B', 'e', 'a', 'r', 'e', 'r', ' ']

/-- An 84-character base64 string with `=` padding. -/
def b64Sample : List Char :=
  ("QWJjMTIzQWJjMTIzQWJjMTIzQWJjMTIzQWJjMTIzQWJjMTIzQWJjMTIzQWJjMTIzQWJjMTIzQWJjMTIzZz==").data

/-- Environment of a fully successful run: every interaction succeeds, the
clipboard holds `sampleToken`, and remote validation accepts. -/
def envSuccess : Env where
  launchOk := true
  newPageOk := true
  minimizeOk := true
  permOk := true
  gotoOk := true
  signinOk := true
  trustOk := true
  avatarRes := fun _ => SelRes.success
  copyOk := true
  okBtnOk := true
  clipboard := some sampleToken
  validatorOk := fun _ => true

/-- Like `envSuccess` but `page.goto` throws. -/
def envGotoFail : Env :=
  { envSuccess with gotoOk := false }

/-- Like `envSuccess` but the wait of every avatar selector times out. -/
def envAvatarFail : Env :=
  { envSuccess with avatarRes := fun _ => SelRes.waitTimeout }

/-- Like `envSuccess` but the clipboard holds the JSON text consisting of an
opening and a closing curly brace. -/
def envClassRej : Env :=
  { envSuccess with clipboard := some ['\x7b', '\x7d'] }

/-- Like `envSuccess` but remote validation rejects the candidate. -/
def envValRej : Env :=
  { envSuccess with validatorOk := fun _ => false }

/-- Like `envSuccess` but the clipboard read throws. -/
def envNoClip : Env :=
  { envSuccess with clipboard := none }

theorem dropLeadingWs_idem (l : List Char) :
    dropLeadingWs (dropLeadingWs l) = dropLeadingWs l := by
  induction l with
  | nil => rfl
  | cons c cs ih =>
    cases h : jsWhitespace c
    · simp [dropLeadingWs, h]
    · simp [dropLeadingWs, h, ih]

theorem mem_dropLeadingWs {c : Char} (hc : jsWhitespace c = false) :
    ∀ {l : List Char}, c ∈ l → c ∈ dropLeadingWs l := by
  intro l
  induction l with
  | nil => intro h; exact absurd h (List.not_mem_nil c)
  | cons x xs ih =>
    intro h
    cases hx : jsWhitespace x
    · simpa [dropLeadingWs, hx] using h
    · rcases List.mem_cons.mp h with h1 | h2
      · subst h1; rw [hx] at hc; cases hc
      · simpa [dropLeadingWs, hx] using ih h2

theorem mem_trimJs {c : Char} (hc : jsWhitespace c = false) {l : List Char}
    (h : c ∈ l) : c ∈ trimJs l := by
  unfold trimJs dropTrailWs
  exact List.mem_reverse.mpr
    (mem_dropLeadingWs hc (List.mem_reverse.mpr (mem_dropLeadingWs hc h)))

theorem eq_mem_stripBearer {s : List Char} (h : '=' ∈ s) : '=' ∈ stripBearer s := by
  rcases s with _ | ⟨b, _ | ⟨e, _ | ⟨a, _ | ⟨r, _ | ⟨e2, _ | ⟨r2, _ | ⟨c, rest⟩⟩⟩⟩⟩⟩⟩
  · exact h
  · exact h
  · exact h
  · exact h
  · exact h
  · exact h
  · exact h
  · cases hcond : (b.toLower == 'b' && e.toLower == 'e' && a.toLower == 'a' &&
      r.toLower == 'r' && e2.toLower == 'e' && r2.toLower == 'r' && jsWhitespace c)
    · simpa [stripBearer, hcond] using h
    · simp only [stripBearer, hcond, if_true]
      simp only [Bool.and_eq_true, beq_iff_eq] at hcond
      obtain ⟨⟨⟨⟨⟨⟨hb, he⟩, ha⟩, hr⟩, he2⟩, hr2⟩, hws⟩ := hcond
      simp only [List.mem_cons] at h
      rcases h with h | h | h | h | h | h | h | h
      · rw [← h] at hb; exact absurd hb (by decide)
      · rw [← h] at he; exact absurd he (by decide)
      · rw [← h] at ha; exact absurd ha (by decide)
      · rw [← h] at hr; exact absurd hr (by decide)
      · rw [← h] at he2; exact absurd he2 (by decide)
      · rw [← h] at hr2; exact absurd hr2 (by decide)
      · rw [← h] at hws; exact absurd hws (by decide)
      · exact mem_dropLeadingWs (by decide) h

theorem setupOk_components {env : Env} (h : setupOk env = true) :
    env.launchOk = true ∧ env.newPageOk = true ∧ env.minimizeOk = true ∧
    env.permOk = true ∧ env.gotoOk = true := by
  unfold setupOk at h
  simp only [Bool.and_eq_true] at h
  exact ⟨h.1.1.1.1, h.1.1.1.2, h.1.1.2, h.1.2, h.2⟩

theorem run_shape (env : Env) :
    (setupOk env = false ∧ getTokenAutomatically env = setupFailResult) ∨
    (setupOk env = true ∧ (extractToken env).token = none ∧
      getTokenAutomatically env =
        ⟨2, [], [], (extractToken env).clipboardAttempted, false, 0, false⟩) ∨
    (∃ t, setupOk env = true ∧ (extractToken env).token = some t ∧
      ((env.validatorOk (trimJs (stripBearer t)) = true ∧
        getTokenAutomatically env =
          ⟨1, [⟨trimJs (stripBearer t), [], 0, bearerTypeStr⟩],
           [trimJs (stripBearer t)], (extractToken env).clipboardAttempted, true, 0, true⟩) ∨
       (env.validatorOk (trimJs (stripBearer t)) = false ∧
        getTokenAutomatically env =
          ⟨1, [], [trimJs (stripBearer t)],
           (extractToken env).clipboardAttempted, true, 0, false⟩))) := by
  unfold getTokenAutomatically setupOk
  cases h1 : env.launchOk
  · left; simp [h1]
  · cases h2 : env.newPageOk
    · left; simp [h1, h2]
    · cases h3 : env.minimizeOk
      · left; simp [h1, h2, h3]
      · cases h4 : env.permOk
        · left; simp [h1, h2, h3, h4]
        · cases h5 : env.gotoOk
          · left; simp [h1, h2, h3, h4, h5]
          · right
            rcases hx : (extractToken env).token with _ | t
            · left; simp [hx]
            · right
              refine ⟨t, by simp, rfl, ?_⟩
              cases hv : env.validatorOk (trimJs (stripBearer t))
              · right; simp [hx, hv]
              · left; simp [hx, hv]

theorem extractToken_token_some {env : Env} {t : List Char}
    (h : (extractToken env).token = some t) :
    ∃ c, env.clipboard = some c ∧ isValidTokenFormat c = true ∧ t = trimJs c := by
  unfold extractToken at h
  rcases hav : runAvatarLoop env.avatarRes with _ | sel <;> rw [hav] at h
  · simp at h
  · cases hcopy : env.copyOk <;> rw [hcopy] at h
    · simp at h
    · cases hok : env.okBtnOk <;> rw [hok] at h
      · simp at h
      · rcases hcl : env.clipboard with _ | c <;> rw [hcl] at h
        · simp at h
        · by_cases hb : (!c.isEmpty && isValidTokenFormat c) = true
          · have h3 : (if (!c.isEmpty && isValidTokenFormat c) = true
                then (⟨some (trimJs c), true⟩ : ExtractRes)
                else ⟨none, true⟩).token = some t := h
            rw [if_pos hb] at h3
            exact ⟨c, rfl, ((Bool.and_eq_true _ _).mp hb).2,
              (Option.some.inj h3).symm⟩
          · exfalso
            have h3 : (if (!c.isEmpty && isValidTokenFormat c) = true
                then (⟨some (trimJs c), true⟩ : ExtractRes)
                else ⟨none, true⟩).token = some t := h
            rw [if_neg hb] at h3
            simp at h3

theorem extractToken_fail {env : Env}
    (h : runAvatarLoop env.avatarRes = none ∨ env.copyOk = false ∨ env.okBtnOk = false) :
    extractToken env = ⟨none, false⟩ := by
  unfold extractToken
  rcases h with h | h | h
  · rw [h]
  · rcases hav : runAvatarLoop env.avatarRes with _ | sel
    · rfl
    · simp [h]
  · rcases hav : runAvatarLoop env.avatarRes with _ | sel
    · rfl
    · cases hcopy : env.copyOk
      · simp [hcopy]
      · simp [hcopy, h]

/-- C1 (corrected): provided the browser launch, page creation, window
script, permission override and navigation all succeed, the Session is closed
at least once before `getTokenAutomatically` returns, on every exit path. -/
theorem c1_session_close_amended (env : Env) (h : setupOk env = true) :
    1 ≤ (getTokenAutomatically env).closeCount := by
  rcases run_shape env with ⟨hs, hr⟩ | ⟨hs, hx, hr⟩ | ⟨t, hs, hx, ⟨hv, hr⟩ | ⟨hv, hr⟩⟩
  · rw [hs] at h; cases h
  · simp [hr]
  · simp [hr]
  · simp [hr]

/-- C1 witness: in the fully successful environment the Session is closed. -/
theorem c1_session_close_witness :
    1 ≤ (getTokenAutomatically envSuccess).closeCount :=
  c1_session_close_amended envSuccess (by decide)

/-- C1 counterexample: when `page.goto` throws after a successful launch, the
exception reaches the outer catch and the run ends with exit code 1 without a
single `browser.close` call. -/
theorem c1_session_close_cex :
    envGotoFail.launchOk = true ∧
    (getTokenAutomatically envGotoFail).closeCount = 0 ∧
    (getTokenAutomatically envGotoFail).exitCode = 1 := by
  refine ⟨by decide, by decide, by decide⟩

/-- C2 (confirmed): `saveToken` is invoked exactly once on the success path
and never otherwise, and any persisted record carries a token obtained from a
clipboard candidate that passed `isValidTokenFormat`, cleaned as at line 327,
and accepted by the validator. -/
theorem c2_persist_only_validated (env : Env) :
    ((getTokenAutomatically env).success = true →
      (getTokenAutomatically env).saveCalls.length = 1) ∧
    ((getTokenAutomatically env).success = false →
      (getTokenAutomatically env).saveCalls = []) ∧
    (∀ tr ∈ (getTokenAutomatically env).saveCalls,
      env.validatorOk tr.access_token = true ∧
      ∃ c, env.clipboard = some c ∧ isValidTokenFormat c = true ∧
        tr.access_token = trimJs (stripBearer (trimJs c))) := by
  rcases run_shape env with ⟨hs, hr⟩ | ⟨hs, hx, hr⟩ | ⟨t, hs, hx, ⟨hv, hr⟩ | ⟨hv, hr⟩⟩
  · rw [hr]; simp [setupFailResult]
  · rw [hr]; simp
  · rw [hr]
    refine ⟨fun _ => rfl, ?_, ?_⟩
    · intro hc; simp at hc
    · intro tr htr
      have htr2 : tr = ⟨trimJs (stripBearer t), [], 0, bearerTypeStr⟩ := by
        simpa using htr
      subst htr2
      obtain ⟨c, hc, hcv, hct⟩ := extractToken_token_some hx
      refine ⟨hv, c, hc, hcv, ?_⟩
      rw [hct]
  · rw [hr]; simp

/-- C2 witness: the successful environment persists exactly one record. -/
theorem c2_persist_only_validated_witness :
    (getTokenAutomatically envSuccess).saveCalls.length = 1 :=
  (c2_persist_only_validated envSuccess).1 (by decide)

/-- C3 (confirmed): the classifier rejects every string whose cleaned form is
shorter than 80 characters, and accepts every string whose cleaned form has
length at least 80, consists only of `[A-Za-z0-9+/_-]`, contains a digit, an
uppercase and a lowercase letter, and matches no JSON-shape or placeholder
pattern. -/
theorem c3_classifier_bounds (s : List Char) :
    ((cleanedOf s).length < 80 → isValidTokenFormat s = false) ∧
    (80 ≤ (cleanedOf s).length → (cleanedOf s).all tokenChar = true →
     hasDigit (cleanedOf s) = true → hasUppercase (cleanedOf s) = true →
     hasLowercase (cleanedOf s) = true → excludeJSON (cleanedOf s) = false →
     excludePlaceholder (cleanedOf s) = false → isValidTokenFormat s = true) := by
  constructor
  · intro h
    unfold isValidTokenFormat checkCleaned
    simp [h]
  · intro h80 hall hd hu hl hj hp
    unfold isValidTokenFormat checkCleaned
    have hlt : ¬ (cleanedOf s).length < 80 := by omega
    have hne : (cleanedOf s).isEmpty = false := by
      cases hcl : cleanedOf s with
      | nil => rw [hcl] at h80; simp at h80
      | cons x xs => rfl
    simp [hlt, hne, hall, hd, hu, hl, hj, hp]

/-- C3 witness: a three-character string is rejected; a 120-character
well-formed candidate is accepted. -/
theorem c3_classifier_bounds_witness :
    isValidTokenFormat ("abc".data) = false ∧ isValidTokenFormat sampleToken = true :=
  ⟨(c3_classifier_bounds ("abc".data)).1 (by decide),
   (c3_classifier_bounds sampleToken).2 (by decide) (by decide) (by decide) (by decide)
     (by decide) (by decide) (by decide)⟩

/-- C4 (code bug): on the success path the credential handed to `saveToken`
has empty refresh token, type Bearer and `expires_in = 0`, but the expiry
value `saveToken` persists is `Date.now() + 0`, the save timestamp, not 0. -/
theorem c4_persisted_expiry_bug :
    (getTokenAutomatically envSuccess).success = true ∧
    (getTokenAutomatically envSuccess).saveCalls.map
      (fun tr => (tr.refresh_token, tr.token_type, tr.expires_in)) =
      [([], bearerTypeStr, 0)] ∧
    (getTokenAutomatically envSuccess).saveCalls.map
      (fun tr => persistedExpiresAt tr 1700000000000) = [1700000000000] :=
  ⟨by decide, by decide, by decide⟩

/-- C5 (corrected): when a reveal step fails (no avatar selector succeeds, or
the copy or confirm step fails), the clipboard read is never attempted, yet
the orchestrator does not abort: it closes the session twice and returns. -/
theorem c5_reveal_failure_amended (env : Env) (hs : setupOk env = true)
    (h : runAvatarLoop env.avatarRes = none ∨ env.copyOk = false ∨
      env.okBtnOk = false) :
    (getTokenAutomatically env).clipboardAttempted = false ∧
    (getTokenAutomatically env).tokenExtracted = false ∧
    (getTokenAutomatically env).closeCount = 2 ∧
    (getTokenAutomatically env).exitCode = 0 := by
  have hex : extractToken env = ⟨none, false⟩ := extractToken_fail h
  rcases run_shape env with ⟨hs2, hr⟩ | ⟨hs2, hx, hr⟩ | ⟨t, hs2, hx, ⟨hv, hr⟩ | ⟨hv, hr⟩⟩
  · rw [hs2] at hs; cases hs
  · rw [hr, hex]; exact ⟨rfl, rfl, rfl, rfl⟩
  · rw [hex] at hx; cases hx
  · rw [hex] at hx; cases hx

/-- C5 witness: with every avatar selector timing out, the run closes the
session twice, attempts no clipboard read and returns. -/
theorem c5_reveal_failure_witness :
    (getTokenAutomatically envAvatarFail).clipboardAttempted = false ∧
    (getTokenAutomatically envAvatarFail).tokenExtracted = false ∧
    (getTokenAutomatically envAvatarFail).closeCount = 2 ∧
    (getTokenAutomatically envAvatarFail).exitCode = 0 :=
  c5_reveal_failure_amended envAvatarFail (by decide) (Or.inl (by decide))

/-- C5 counterexample: the reveal plan fails (every avatar wait times out)
while the clipboard holds a perfectly good token, and the clipboard read is
never attempted. -/
theorem c5_reveal_failure_cex :
    runAvatarLoop envAvatarFail.avatarRes = none ∧
    envAvatarFail.clipboard = some sampleToken ∧
    (getTokenAutomatically envAvatarFail).clipboardAttempted = false :=
  ⟨by decide, by decide, by decide⟩

/-- C6 (corrected): prefixing `Bearer ` preserves the classifier verdict for
every string that the Bearer-stripping step leaves unchanged. -/
theorem c6_bearer_idempotent_amended (x : List Char) (h : stripBearer x = x) :
    isValidTokenFormat (bearerSp ++ x) = isValidTokenFormat x := by
  unfold isValidTokenFormat cleanedOf
  have h1 : stripBearer (bearerSp ++ x) = dropLeadingWs x := rfl
  rw [h1, h]
  unfold trimJs
  rw [dropLeadingWs_idem]

/-- C6 witness: the verdict is preserved for the 120-character sample. -/
theorem c6_bearer_idempotent_witness :
    isValidTokenFormat (bearerSp ++ sampleToken) = isValidTokenFormat sampleToken :=
  c6_bearer_idempotent_amended sampleToken (by decide)

/-- C6 counterexample: for a string that itself starts with `Bearer `, the
verdicts differ, because the replace removes only one prefix and the leftover
`Bearer ` makes the character-class test fail. -/
theorem c6_bearer_idempotent_cex :
    isValidTokenFormat (bearerSp ++ (bearerSp ++ sampleToken)) = false ∧
    isValidTokenFormat (bearerSp ++ sampleToken) = true :=
  ⟨by decide, by decide⟩

/-- C7 (corrected): the process exit code of the login command is 0 exactly when
the five setup interactions succeed — including the classification-rejection
and validation-rejection paths, which return without calling `process.exit` —
and 1 exactly when one of them throws. -/
theorem c7_exit_codes_amended (env : Env) :
    (getTokenAutomatically env).exitCode = if setupOk env = true then 0 else 1 := by
  rcases run_shape env with ⟨hs, hr⟩ | ⟨hs, hx, hr⟩ | ⟨t, hs, hx, ⟨hv, hr⟩ | ⟨hv, hr⟩⟩
  · simp [hr, hs, setupFailResult]
  · simp [hr, hs]
  · simp [hr, hs]
  · simp [hr, hs]

/-- C7 counterexample: a run in which classification rejects the clipboard
text reaches a Failure outcome yet terminates with exit code 0, not 1. -/
theorem c7_exit_codes_cex :
    (getTokenAutomatically envClassRej).success = false ∧
    (getTokenAutomatically envClassRej).tokenExtracted = false ∧
    (getTokenAutomatically envClassRej).exitCode = 0 :=
  ⟨by decide, by decide, by decide⟩

/-- C8 (confirmed): any string containing `=` is rejected by the classifier
(the `=` survives cleaning and falls outside `[A-Za-z0-9+/_-]`), while the
debug regex of line 337 accepts an 84-character base64 string with `=`
padding that the classifier rejects. -/
theorem c8_rejects_equals (s : List Char) (h : '=' ∈ s) :
    isValidTokenFormat s = false ∧
    base64DebugFormat b64Sample = true ∧
    isValidTokenFormat b64Sample = false := by
  refine ⟨?_, by decide, by decide⟩
  have hmem : '=' ∈ cleanedOf s := mem_trimJs (by decide) (eq_mem_stripBearer h)
  unfold isValidTokenFormat checkCleaned
  by_cases hl : (cleanedOf s).length < 80
  · simp [hl]
  · have hall : (cleanedOf s).all tokenChar = false := by
      rw [List.all_eq_false]
      exact ⟨'=', hmem, by decide⟩
    simp [hl, hall]

/-- C8 witness: the padded base64 sample itself contains `=` and is
rejected, though the debug check calls it base64. -/
theorem c8_rejects_equals_witness :
    isValidTokenFormat b64Sample = false ∧
    base64DebugFormat b64Sample = true ∧
    isValidTokenFormat b64Sample = false :=
  c8_rejects_equals b64Sample (by decide)

/-- C9 (confirmed): on every run in which setup succeeded but no token was
extracted, `browser.close` is invoked twice. -/
theorem c9_double_close (env : Env) (hs : setupOk env = true)
    (h : (getTokenAutomatically env).tokenExtracted = false) :
    (getTokenAutomatically env).closeCount = 2 := by
  rcases run_shape env with ⟨hs2, hr⟩ | ⟨hs2, hx, hr⟩ | ⟨t, hs2, hx, ⟨hv, hr⟩ | ⟨hv, hr⟩⟩
  · rw [hs2] at hs; cases hs
  · simp [hr]
  · rw [hr] at h; simp at h
  · rw [hr] at h; simp at h

/-- C9 witness: when the clipboard read throws, the session is closed twice. -/
theorem c9_double_close_witness :
    (getTokenAutomatically envNoClip).closeCount = 2 :=
  c9_double_close envNoClip (by decide) (by decide)

/-- C10 (confirmed): the avatar alternative loop fails only when no
alternative has both its wait resolve and its click succeed; a click that
throws merely moves on to the next alternative. -/
theorem c10_avatar_alternatives (res : String → SelRes) :
    runAvatarLoop res = none ↔
      ∀ s ∈ avatarSelectors, res s ≠ SelRes.success := by
  unfold runAvatarLoop
  rw [List.find?_eq_none]
  constructor
  · intro h s hs hcontra
    exact h s hs (by simp [hcontra])
  · intro h s hs
    simpa using h s hs

/-- C10 witness: a later alternative succeeding after the click of an earlier
alternative throws still makes the step succeed, and all alternatives failing
makes it fail. -/
theorem c10_avatar_alternatives_witness :
    runAvatarLoop (fun _ => SelRes.waitTimeout) = none ∧
    ¬ runAvatarLoop
        (fun s => if s = ".md-top-bar__user" then SelRes.success
                  else SelRes.clickThrew) = none := by
  constructor
  · exact (c10_avatar_alternatives (fun _ => SelRes.waitTimeout)).mpr (by decide)
  · intro hnone
    have := (c10_avatar_alternatives
      (fun s => if s = ".md-top-bar__user" then SelRes.success
                else SelRes.clickThrew)).mp hnone
    exact absurd (this ".md-top-bar__user" (by decide)) (by decide)
